import Mathlib

/-!
# Verification of the Voyex Contact-us field-validation pipeline

Shallow embedding of `src/app/page.js` (the `ContactUs` component).  The
repository contains two variants of the page (AbstractAPI-based and
Hunter/Numverify-based); their control flow for form state, validation
state and submission is identical, so a single embedding covers both.
The only differences are the upstream endpoints and the debounce wait
(5000 ms vs 500 ms); the wait is kept as a parameter.

State is mutated only from the single UI thread, so the component is
embedded as pure functions from state to state paired with a list of
observable effects (toasts, outbound sends), listed in program order.
-/

namespace ContactUs

/-- The `formData` React state: `{ firstName, lastName, email, phone }`,
all plain strings (page.js lines 14-19). -/
structure FormData where
  firstName : String
  lastName : String
  email : String
  phone : String
deriving DecidableEq, Repr

/-- The `errors` React state: `{ email, phone }`, error message strings,
empty means no known error (page.js lines 22-25). -/
structure Errors where
  email : String
  phone : String
deriving DecidableEq, Repr

/-- The component state: `formData`, `errors` and the `isSubmitting`
flag (page.js lines 14-28). -/
structure CState where
  formData : FormData
  errors : Errors
  isSubmitting : Bool
deriving DecidableEq, Repr

/-- The initial state set by the `useState` calls: all fields empty,
no errors, not submitting. -/
def initState : CState :=
  { formData := { firstName := "", lastName := "", email := "", phone := "" }
    errors := { email := "", phone := "" }
    isSubmitting := false }

/-- Observable effects of the component: toast notifications
(`toast.error` / `toast.success`) and the outbound `emailjs.send` call
with its payload. -/
inductive Effect where
  | toastError (msg : String)
  | toastSuccess (msg : String)
  | emailjsSend (payload : FormData)
deriving DecidableEq, Repr

/-- Number of outbound `emailjs.send` calls in an effect list. -/
def countSends (l : List Effect) : Nat :=
  (l.filter fun e => match e with | .emailjsSend _ => true | _ => false).length

/-- Number of `toast.success` notifications in an effect list. -/
def countSuccessToasts (l : List Effect) : Nat :=
  (l.filter fun e => match e with | .toastSuccess _ => true | _ => false).length

/-- Number of `toast.error` notifications in an effect list. -/
def countErrorToasts (l : List Effect) : Nat :=
  (l.filter fun e => match e with | .toastError _ => true | _ => false).length

/-- Embeds `sendEmail` (page.js lines 102-144).  JS truthiness on the
string fields (`!formData.firstName`, `errors.email || errors.phone`)
is emptiness/non-emptiness.  The `sendSucceeds` argument models whether
the awaited `emailjs.send` promise resolves (try branch) or rejects
(catch branch).  The function first runs `setIsSubmitting(true)`, but
every return path runs `setIsSubmitting(false)` before returning (the
early returns explicitly, the send paths via `finally`), so the state
returned here carries the net effect `isSubmitting := false`; the
transient `true` period is modelled by the caller (`clickSubmit`)
passing the pre-call flag.  Note the function performs no check of
`isSubmitting` itself. -/
def sendEmail (st : CState) (sendSucceeds : Bool) : CState × List Effect :=
  if st.formData.firstName = "" ∨ st.formData.lastName = "" ∨
      st.formData.email = "" ∨ st.formData.phone = "" then
    ({ st with isSubmitting := false },
     [Effect.toastError "Please fill in all fields."])
  else if ¬ st.errors.email = "" ∨ ¬ st.errors.phone = "" then
    ({ st with isSubmitting := false },
     [Effect.toastError "Please fix validation errors before submitting."])
  else if sendSucceeds then
    ({ st with
        formData := { firstName := "", lastName := "", email := "", phone := "" }
        isSubmitting := false },
     [Effect.emailjsSend st.formData,
      Effect.toastSuccess "Message sent successfully!"])
  else
    ({ st with isSubmitting := false },
     [Effect.emailjsSend st.formData,
      Effect.toastError "Failed to send message. Please try again."])

/-- Outcome of the upstream email-verification HTTP call as observed by
`validateEmailWithAbstract` (page.js lines 38-50): either a response
with the `is_valid_format` / `is_deliverable` booleans, or a thrown
error (network error, non-2xx, malformed payload: anything that makes
the awaited `axios.get` or the field access throw). -/
inductive EmailApiOutcome where
  | ok (is_valid_format : Bool) (is_deliverable : Bool)
  | failure
deriving DecidableEq, Repr

/-- Outcome of the upstream phone-verification HTTP call as observed by
`validatePhoneWithAbstract` (page.js lines 53-65). -/
inductive PhoneApiOutcome where
  | ok (valid : Bool)
  | failure
deriving DecidableEq, Repr

/-- Embeds `validateEmailWithAbstract` (page.js lines 38-50): returns
`is_valid_format && is_deliverable` on a response, and on any upstream
failure shows the service-unavailable toast and returns `false`. -/
def validateEmailWithAbstract : EmailApiOutcome → Bool × List Effect
  | .ok f d => (f && d, [])
  | .failure =>
      (false,
       [Effect.toastError
          "Email validation service is currently unavailable. Please try again later."])

/-- Embeds `validatePhoneWithAbstract` (page.js lines 53-65): returns
`response.data.valid` on a response, and on any upstream failure shows
the service-unavailable toast and returns `false`. -/
def validatePhoneWithAbstract : PhoneApiOutcome → Bool × List Effect
  | .ok v => (v, [])
  | .failure =>
      (false,
       [Effect.toastError
          "Phone validation service is currently unavailable. Please try again later."])

/-- The body of `debouncedValidateEmail` (page.js lines 68-72), run once
the debounce timer has fired and the upstream call completed: it writes
`""` or `"Invalid email address"` into `errors.email` via `setErrors`,
unconditionally — there is no sequence-number or staleness check. -/
def debouncedValidateEmailApply (o : EmailApiOutcome) (e : Errors) :
    Errors × List Effect :=
  let r := validateEmailWithAbstract o
  ({ e with email := if r.1 then "" else "Invalid email address" }, r.2)

/-- The body of `debouncedValidatePhone` (page.js lines 75-79), run once
the debounce timer has fired and the upstream call completed. -/
def debouncedValidatePhoneApply (o : PhoneApiOutcome) (e : Errors) :
    Errors × List Effect :=
  let r := validatePhoneWithAbstract o
  ({ e with phone := if r.1 then "" else "Invalid phone number" }, r.2)

/-! ## Debounce semantics

The Debounced Validator wraps the verifier in `debounce(f, wait)` from
lodash, a dependency whose code is not under `src/`.  Modelled from the
spec (§4.1, §6.1 of the glossary) and lodash's documented trailing-edge
contract: each call restarts a single timer; the wrapped function runs
with the latest arguments once `wait` has elapsed with no further call;
a call arriving before the timer fires discards the pending invocation. -/

/-- One edit event: the time at which the debounced function was called
and the field value it carried. -/
structure Edit where
  time : Nat
  value : String
deriving DecidableEq, Repr

/-- The invocations a trailing-edge debounce actually executes, given
the full call sequence in time order: a call followed within `wait` by
another call is discarded; otherwise it fires at `time + wait` with its
value.  Returns the list of `(fire time, value)` pairs. -/
def firesAfter (wait : Nat) : List Edit → List (Nat × String)
  | [] => []
  | [e] => [(e.time + wait, e.value)]
  | e :: e2 :: rest =>
      if e2.time < e.time + wait then firesAfter wait (e2 :: rest)
      else (e.time + wait, e.value) :: firesAfter wait (e2 :: rest)

/-- Last element of a nonempty edit list, written with an explicit head
so no proof argument is needed. -/
def lastEdit (e : Edit) : List Edit → Edit
  | [] => e
  | e2 :: rest => lastEdit e2 rest

/-- `rapidBurst wait l = true` when the times in `l` are strictly
increasing and every consecutive gap is smaller than `wait` (every edit
after the first arrives inside the previous edit's quiescence window). -/
def rapidBurst (wait : Nat) : List Edit → Bool
  | [] => true
  | [_] => true
  | e :: e2 :: rest =>
      decide (e.time < e2.time) && decide (e2.time < e.time + wait) &&
        rapidBurst wait (e2 :: rest)

/-! ## Out-of-order response application

Once a debounced invocation has fired, its network request is in flight
and nothing in the code cancels it or tags it with a sequence number:
every response that arrives runs the `setErrors` functional update.
An issued email-validation call is recorded with its issue order and
the boolean the verifier will produce for it. -/

/-- An issued (fired) email-validation call: `seq` is its issue order
(larger = issued later) and `result` the boolean
`validateEmailWithAbstract` produces for it. -/
structure IssuedCall where
  seq : Nat
  result : Bool
deriving DecidableEq, Repr

/-- What the code does when the response of issued call `c` arrives
(page.js line 71): the `setErrors` update runs unconditionally — `seq`
is not consulted. -/
def applyEmailArrival (e : Errors) (c : IssuedCall) : Errors :=
  { e with email := if c.result then "" else "Invalid email address" }

/-- Applies a list of responses in their network arrival order. -/
def runEmailArrivals (e : Errors) (l : List IssuedCall) : Errors :=
  l.foldl applyEmailArrival e

/-! ## Event-level transition system

Every mutation of React state in the component, as a step function on
`CState`.  `inputChange` is `handleInputChange` (lines 82-91, computed
key `[name]: value`), `phoneChange` is `handlePhoneChange` (94-99),
`emailResult` / `phoneResult` are completed debounced validations, and
`submitForm` is `sendEmail` with the given send outcome. -/

/-- `setFormData({ ...formData, [name]: value })` with a computed key:
one of the four known fields is replaced; any other key leaves the four
fields untouched. -/
def setField (fd : FormData) (name value : String) : FormData :=
  if name = "firstName" then { fd with firstName := value }
  else if name = "lastName" then { fd with lastName := value }
  else if name = "email" then { fd with email := value }
  else if name = "phone" then { fd with phone := value }
  else fd

/-- The UI events that mutate component state. -/
inductive Event where
  | inputChange (name value : String)
  | phoneChange (value : String)
  | emailResult (o : EmailApiOutcome)
  | phoneResult (o : PhoneApiOutcome)
  | submitForm (sendSucceeds : Bool)
deriving DecidableEq, Repr

/-- `true` exactly on the two events that are a completed debounced
validation. -/
def isValidationEvent : Event → Bool
  | .emailResult _ => true
  | .phoneResult _ => true
  | _ => false

/-- State transition for one event, mirroring the `setFormData`,
`setErrors`, `setIsSubmitting` calls of the respective handler. -/
def step (st : CState) : Event → CState
  | .inputChange n v => { st with formData := setField st.formData n v }
  | .phoneChange v => { st with formData := { st.formData with phone := v } }
  | .emailResult o =>
      { st with errors := (debouncedValidateEmailApply o st.errors).1 }
  | .phoneResult o =>
      { st with errors := (debouncedValidatePhoneApply o st.errors).1 }
  | .submitForm ok => (sendEmail st ok).1

/-- States reachable from the initial `useState` values under the
component's event handlers. -/
inductive Reachable : CState → Prop where
  | init : Reachable initState
  | next {st : CState} (ev : Event) : Reachable st → Reachable (step st ev)

/-- The submit button (page.js lines 251-257) carries
`disabled={isSubmitting}`; a disabled submit button dispatches no
submit event, so a click while a submission is outstanding never
reaches `sendEmail`. -/
def clickSubmit (st : CState) (sendSucceeds : Bool) : CState × List Effect :=
  if st.isSubmitting then (st, [])
  else sendEmail st sendSucceeds

/-! ## Helper lemmas -/

/-- `sendEmail` never writes to `errors`: no branch calls `setErrors`. -/
theorem sendEmail_preserves_errors (st : CState) (ok : Bool) :
    (sendEmail st ok).1.errors = st.errors := by
  unfold sendEmail
  split_ifs <;> rfl

/-- `sendEmail` leaves `isSubmitting` false on every path: the early
returns reset it and the `finally` block resets it. -/
theorem sendEmail_resets_isSubmitting (st : CState) (ok : Bool) :
    (sendEmail st ok).1.isSubmitting = false := by
  unfold sendEmail
  split_ifs <;> rfl

/-! ## Claims about the submit gate -/

/-- C5: when all four fields are non-empty and both error entries are
empty, `sendEmail` with a succeeding send issues exactly one
`emailjs.send` carrying exactly the current form data, produces exactly
one success toast, and resets all four fields to the empty string. -/
theorem gate_pass_success_sends_once_and_resets (st : CState)
    (h1 : ¬ st.formData.firstName = "") (h2 : ¬ st.formData.lastName = "")
    (h3 : ¬ st.formData.email = "") (h4 : ¬ st.formData.phone = "")
    (h5 : st.errors.email = "") (h6 : st.errors.phone = "") :
    (sendEmail st true).2 =
      [Effect.emailjsSend st.formData,
       Effect.toastSuccess "Message sent successfully!"] ∧
    countSends (sendEmail st true).2 = 1 ∧
    countSuccessToasts (sendEmail st true).2 = 1 ∧
    (sendEmail st true).1.formData =
      { firstName := "", lastName := "", email := "", phone := "" } := by
  simp [sendEmail, countSends, countSuccessToasts, h1, h2, h3, h4, h5, h6]

/-- Witness for C5 at the spec's example data. -/
theorem gate_pass_success_sends_once_and_resets_witness :
    (sendEmail ⟨⟨"Ada", "Lovelace", "ada@example.com", "+15551234567"⟩,
        ⟨"", ""⟩, false⟩ true).2 =
      [Effect.emailjsSend ⟨"Ada", "Lovelace", "ada@example.com", "+15551234567"⟩,
       Effect.toastSuccess "Message sent successfully!"] ∧
    countSends (sendEmail ⟨⟨"Ada", "Lovelace", "ada@example.com", "+15551234567"⟩,
        ⟨"", ""⟩, false⟩ true).2 = 1 ∧
    countSuccessToasts (sendEmail ⟨⟨"Ada", "Lovelace", "ada@example.com", "+15551234567"⟩,
        ⟨"", ""⟩, false⟩ true).2 = 1 ∧
    (sendEmail ⟨⟨"Ada", "Lovelace", "ada@example.com", "+15551234567"⟩,
        ⟨"", ""⟩, false⟩ true).1.formData =
      { firstName := "", lastName := "", email := "", phone := "" } :=
  gate_pass_success_sends_once_and_resets _
    (by decide) (by decide) (by decide) (by decide) rfl rfl

/-- C6: when the gate checks pass but the send rejects, the submitted
form data is preserved unchanged, exactly one failure toast is
produced, and `isSubmitting` is false afterwards so a retry is
possible. -/
theorem send_failure_preserves_form_and_toasts_once (st : CState)
    (h1 : ¬ st.formData.firstName = "") (h2 : ¬ st.formData.lastName = "")
    (h3 : ¬ st.formData.email = "") (h4 : ¬ st.formData.phone = "")
    (h5 : st.errors.email = "") (h6 : st.errors.phone = "") :
    (sendEmail st false).1.formData = st.formData ∧
    (sendEmail st false).1.errors = st.errors ∧
    (sendEmail st false).1.isSubmitting = false ∧
    (sendEmail st false).2 =
      [Effect.emailjsSend st.formData,
       Effect.toastError "Failed to send message. Please try again."] ∧
    countErrorToasts (sendEmail st false).2 = 1 := by
  simp [sendEmail, countErrorToasts, h1, h2, h3, h4, h5, h6]

/-- Witness for C6 at the spec's example data. -/
theorem send_failure_preserves_form_and_toasts_once_witness :
    (sendEmail ⟨⟨"Ada", "Lovelace", "ada@example.com", "+15551234567"⟩,
        ⟨"", ""⟩, false⟩ false).1.formData =
      ⟨"Ada", "Lovelace", "ada@example.com", "+15551234567"⟩ ∧
    (sendEmail ⟨⟨"Ada", "Lovelace", "ada@example.com", "+15551234567"⟩,
        ⟨"", ""⟩, false⟩ false).1.errors = ⟨"", ""⟩ ∧
    (sendEmail ⟨⟨"Ada", "Lovelace", "ada@example.com", "+15551234567"⟩,
        ⟨"", ""⟩, false⟩ false).1.isSubmitting = false ∧
    (sendEmail ⟨⟨"Ada", "Lovelace", "ada@example.com", "+15551234567"⟩,
        ⟨"", ""⟩, false⟩ false).2 =
      [Effect.emailjsSend ⟨"Ada", "Lovelace", "ada@example.com", "+15551234567"⟩,
       Effect.toastError "Failed to send message. Please try again."] ∧
    countErrorToasts (sendEmail ⟨⟨"Ada", "Lovelace", "ada@example.com", "+15551234567"⟩,
        ⟨"", ""⟩, false⟩ false).2 = 1 :=
  send_failure_preserves_form_and_toasts_once _
    (by decide) (by decide) (by decide) (by decide) rfl rfl

/-- C7: when any required field is empty, `sendEmail` blocks: no
`emailjs.send` is issued and the missing-fields message is the only
effect. -/
theorem empty_field_blocks_submission (st : CState) (ok : Bool)
    (h : st.formData.firstName = "" ∨ st.formData.lastName = "" ∨
         st.formData.email = "" ∨ st.formData.phone = "") :
    (sendEmail st ok).2 = [Effect.toastError "Please fill in all fields."] ∧
    countSends (sendEmail st ok).2 = 0 := by
  rcases h with h | h | h | h <;> simp [sendEmail, countSends, h]

/-- Witness for C7 at the spec's example (empty first name). -/
theorem empty_field_blocks_submission_witness :
    (sendEmail ⟨⟨"", "Doe", "a@b.com", "+15551234567"⟩, ⟨"", ""⟩, false⟩ true).2 =
      [Effect.toastError "Please fill in all fields."] ∧
    countSends
      (sendEmail ⟨⟨"", "Doe", "a@b.com", "+15551234567"⟩, ⟨"", ""⟩, false⟩ true).2 = 0 :=
  empty_field_blocks_submission _ true (Or.inl rfl)

/-- C8: when all fields are non-empty but an error entry is non-empty,
`sendEmail` blocks: no `emailjs.send` is issued and the fix-validation
message is the only effect. -/
theorem validation_error_blocks_submission (st : CState) (ok : Bool)
    (h1 : ¬ st.formData.firstName = "") (h2 : ¬ st.formData.lastName = "")
    (h3 : ¬ st.formData.email = "") (h4 : ¬ st.formData.phone = "")
    (he : ¬ st.errors.email = "" ∨ ¬ st.errors.phone = "") :
    (sendEmail st ok).2 =
      [Effect.toastError "Please fix validation errors before submitting."] ∧
    countSends (sendEmail st ok).2 = 0 := by
  rcases he with he | he <;>
    simp [sendEmail, countSends, h1, h2, h3, h4, he]

/-- Witness for C8 at the spec's example (email error set). -/
theorem validation_error_blocks_submission_witness :
    (sendEmail ⟨⟨"Ada", "Lovelace", "ada@example.com", "+15551234567"⟩,
        ⟨"Invalid email address", ""⟩, false⟩ true).2 =
      [Effect.toastError "Please fix validation errors before submitting."] ∧
    countSends (sendEmail ⟨⟨"Ada", "Lovelace", "ada@example.com", "+15551234567"⟩,
        ⟨"Invalid email address", ""⟩, false⟩ true).2 = 0 :=
  validation_error_blocks_submission _ true
    (by decide) (by decide) (by decide) (by decide) (Or.inl (by decide))

/-- C10: whenever `sendEmail` blocks at the gate (a required field is
empty, or an error entry is non-empty), form data and errors are left
exactly as they were, `isSubmitting` is false afterwards, and no send
is issued. -/
theorem blocked_submit_preserves_state (st : CState) (ok : Bool)
    (h : (st.formData.firstName = "" ∨ st.formData.lastName = "" ∨
          st.formData.email = "" ∨ st.formData.phone = "") ∨
         (¬ st.errors.email = "" ∨ ¬ st.errors.phone = "")) :
    (sendEmail st ok).1.formData = st.formData ∧
    (sendEmail st ok).1.errors = st.errors ∧
    (sendEmail st ok).1.isSubmitting = false ∧
    countSends (sendEmail st ok).2 = 0 := by
  unfold sendEmail
  split_ifs with hm herr hok
  · exact ⟨rfl, rfl, rfl, rfl⟩
  · exact ⟨rfl, rfl, rfl, rfl⟩
  · exact absurd h (by simp_all)
  · exact absurd h (by simp_all)

/-- Witness for C10 at a state blocked by an empty field. -/
theorem blocked_submit_preserves_state_witness :
    (sendEmail ⟨⟨"", "Doe", "a@b.com", "+15551234567"⟩,
        ⟨"", ""⟩, false⟩ true).1.formData = ⟨"", "Doe", "a@b.com", "+15551234567"⟩ ∧
    (sendEmail ⟨⟨"", "Doe", "a@b.com", "+15551234567"⟩,
        ⟨"", ""⟩, false⟩ true).1.errors = ⟨"", ""⟩ ∧
    (sendEmail ⟨⟨"", "Doe", "a@b.com", "+15551234567"⟩,
        ⟨"", ""⟩, false⟩ true).1.isSubmitting = false ∧
    countSends (sendEmail ⟨⟨"", "Doe", "a@b.com", "+15551234567"⟩,
        ⟨"", ""⟩, false⟩ true).2 = 0 :=
  blocked_submit_preserves_state _ true (Or.inl (Or.inl rfl))

/-! ## Claims about re-entrant submission (C4) -/

/-- Counterexample to C4 as stated: with `isSubmitting = true` (a send
outstanding) and a filled, error-free form, invoking `sendEmail` again
is not a no-op — it issues another `emailjs.send` and changes the form
data.  The function body contains no `isSubmitting` check. -/
theorem resubmit_while_submitting_still_sends :
    countSends (sendEmail ⟨⟨"Ada", "Lovelace", "ada@example.com", "+15551234567"⟩,
        ⟨"", ""⟩, true⟩ true).2 = 1 ∧
    ¬ (sendEmail ⟨⟨"Ada", "Lovelace", "ada@example.com", "+15551234567"⟩,
        ⟨"", ""⟩, true⟩ true).1.formData =
      ⟨"Ada", "Lovelace", "ada@example.com", "+15551234567"⟩ := by
  constructor
  · rfl
  · decide

/-- C4 (amended): the re-entry protection lives in the UI, not in
`sendEmail`: while `isSubmitting` is true the submit button is
disabled, so a submit attempt through the form dispatches no event and
leaves state and effects untouched. -/
theorem submit_click_while_submitting_is_noop (st : CState) (ok : Bool)
    (h : st.isSubmitting = true) :
    clickSubmit st ok = (st, []) := by
  simp [clickSubmit, h]

/-- Witness for the amended C4 at a concrete in-progress state. -/
theorem submit_click_while_submitting_is_noop_witness :
    clickSubmit ⟨⟨"Ada", "Lovelace", "ada@example.com", "+15551234567"⟩,
        ⟨"", ""⟩, true⟩ true =
      (⟨⟨"Ada", "Lovelace", "ada@example.com", "+15551234567"⟩, ⟨"", ""⟩, true⟩, []) :=
  submit_click_while_submitting_is_noop _ true rfl

/-! ## Claims about service unavailability (C3) -/

/-- Counterexample to C3 as stated: with a prior valid determination
for email (`errors.email = ""`), an upstream failure is not kept as a
mere warning — `validateEmailWithAbstract` returns `false`, and the
completed validator writes the hard error `"Invalid email address"`,
overwriting the prior determination. -/
theorem unavailable_marks_hard_error :
    (validateEmailWithAbstract .failure).1 = false ∧
    (debouncedValidateEmailApply .failure ⟨"", ""⟩).1 =
      ⟨"Invalid email address", ""⟩ := by
  decide

/-- C3 (amended): when the upstream call fails, a service-unavailable
toast is shown, but the verifier returns `false`, so the field is
marked with the same hard validation error as an invalid value —
overwriting any prior determination; ValidationState does not
distinguish unavailable from invalid. -/
theorem unavailable_treated_as_invalid (e : Errors) :
    debouncedValidateEmailApply .failure e =
      ({ e with email := "Invalid email address" },
       [Effect.toastError
          "Email validation service is currently unavailable. Please try again later."]) ∧
    debouncedValidatePhoneApply .failure e =
      ({ e with phone := "Invalid phone number" },
       [Effect.toastError
          "Phone validation service is currently unavailable. Please try again later."]) := by
  constructor <;> rfl

/-! ## Claims about stale validation results (C1) -/

/-- Counterexample to C1 as stated: call V1 (issued first, verifier
result `false`) is superseded by V2 (issued second, result `true`).
V2's response arrives first and is applied, giving `errors.email = ""`;
then V1's late response arrives and — since the `setErrors` update runs
unconditionally, with no sequence check — overwrites V2's applied
determination with `"Invalid email address"`. -/
theorem stale_email_result_overwrites :
    runEmailArrivals ⟨"", ""⟩ [⟨2, true⟩] = ⟨"", ""⟩ ∧
    runEmailArrivals ⟨"", ""⟩ [⟨2, true⟩, ⟨1, false⟩] =
      ⟨"Invalid email address", ""⟩ := by
  decide

/-- C1 (amended): a call superseded before its debounce timer fires is
discarded and never updates ValidationState, but once a call has been
issued to the network its response is applied unconditionally on
arrival: after all responses have arrived, the email entry reflects the
last response to arrive — which may belong to an earlier-issued,
superseded call — and the phone entry is untouched. -/
theorem email_errors_last_arrival_wins (e : Errors) (l : List IssuedCall)
    (c : IssuedCall) :
    (runEmailArrivals e (l ++ [c])).email =
      (if c.result then "" else "Invalid email address") ∧
    (runEmailArrivals e (l ++ [c])).phone = e.phone := by
  induction l generalizing e with
  | nil => exact ⟨rfl, rfl⟩
  | cons a l ih =>
      simpa [runEmailArrivals, applyEmailArrival] using
        ih { e with email := if a.result then "" else "Invalid email address" }

/-! ## Claims about debouncing (C2) -/

/-- C2: for a burst of edits in which every later edit arrives inside
the previous edit's quiescence window, the trailing-edge debounce
executes exactly one invocation, carrying the last value of the burst,
at `last time + wait` — strictly after every edit of the burst, so
nothing is in flight while the burst is still ongoing (and the single
pending timer means at most one invocation is ever scheduled). -/
theorem rapid_burst_fires_once_with_last_value (wait : Nat) (e : Edit)
    (rest : List Edit) (hw : 0 < wait)
    (hb : rapidBurst wait (e :: rest) = true) :
    firesAfter wait (e :: rest) =
      [((lastEdit e rest).time + wait, (lastEdit e rest).value)] ∧
    ∀ ed ∈ (e :: rest), ed.time < (lastEdit e rest).time + wait := by
  induction rest generalizing e with
  | nil =>
      refine ⟨rfl, ?_⟩
      intro ed hed
      rw [List.mem_singleton] at hed
      subst hed
      show ed.time < (lastEdit ed []).time + wait
      simp only [lastEdit]
      omega
  | cons e2 rest ih =>
      have hb' : e.time < e2.time ∧ e2.time < e.time + wait ∧
          rapidBurst wait (e2 :: rest) = true := by
        simpa [rapidBurst, Bool.and_eq_true, decide_eq_true_eq, and_assoc] using hb
      obtain ⟨h1, h2, h3⟩ := hb'
      obtain ⟨hf, hall⟩ := ih e2 h3
      constructor
      · have hdrop : firesAfter wait (e :: e2 :: rest) = firesAfter wait (e2 :: rest) := by
          simp [firesAfter, h2]
        rw [hdrop, hf]
        rfl
      · intro ed hed
        show ed.time < (lastEdit e2 rest).time + wait
        rcases List.mem_cons.mp hed with h | h
        · subst h
          exact lt_trans h1 (hall e2 (List.mem_cons_self _ _))
        · exact hall ed h

/-- Witness for C2: a three-edit burst with wait 500 (the
Hunter/Numverify variant's window) fires once, at time 800, with the
final value. -/
theorem rapid_burst_fires_once_with_last_value_witness :
    firesAfter 500 [⟨0, "a"⟩, ⟨100, "ab"⟩, ⟨300, "ab@x.com"⟩] =
      [(800, "ab@x.com")] := by
  simpa [lastEdit] using
    (rapid_burst_fires_once_with_last_value 500 ⟨0, "a"⟩
      [⟨100, "ab"⟩, ⟨300, "ab@x.com"⟩] (by decide) (by decide)).1

/-! ## Claims about the ValidationState invariant (C9) -/

/-- Every reachable state carries canonical error strings: the email
entry is `""` or `"Invalid email address"`, the phone entry `""` or
`"Invalid phone number"`. -/
theorem reachable_errors_canonical (st : CState) (h : Reachable st) :
    (st.errors.email = "" ∨ st.errors.email = "Invalid email address") ∧
    (st.errors.phone = "" ∨ st.errors.phone = "Invalid phone number") := by
  induction h with
  | init => exact ⟨Or.inl rfl, Or.inl rfl⟩
  | next ev hR ih =>
      cases ev with
      | inputChange n v => exact ih
      | phoneChange v => exact ih
      | submitForm ok =>
          simpa only [step, sendEmail_preserves_errors] using ih
      | emailResult o =>
          refine ⟨?_, ih.2⟩
          simp only [step, debouncedValidateEmailApply]
          cases hb : (validateEmailWithAbstract o).1 <;> simp [hb]
      | phoneResult o =>
          refine ⟨ih.1, ?_⟩
          simp only [step, debouncedValidatePhoneApply]
          cases hb : (validatePhoneWithAbstract o).1 <;> simp [hb]

/-- C9: in every reachable state the email error entry is `""` or
`"Invalid email address"` and the phone entry `""` or
`"Invalid phone number"`, and every event other than a completed
debounced validation leaves `errors` unchanged. -/
theorem errors_canonical_and_only_validators_mutate (st : CState) (ev : Event)
    (hst : Reachable st) (hev : isValidationEvent ev = false) :
    (st.errors.email = "" ∨ st.errors.email = "Invalid email address") ∧
    (st.errors.phone = "" ∨ st.errors.phone = "Invalid phone number") ∧
    (step st ev).errors = st.errors := by
  obtain ⟨h1, h2⟩ := reachable_errors_canonical st hst
  refine ⟨h1, h2, ?_⟩
  cases ev with
  | inputChange n v => rfl
  | phoneChange v => rfl
  | submitForm ok => exact sendEmail_preserves_errors st ok
  | emailResult o => exact absurd hev (by simp [isValidationEvent])
  | phoneResult o => exact absurd hev (by simp [isValidationEvent])

/-- Witness for C9 at the initial state and a submit event. -/
theorem errors_canonical_and_only_validators_mutate_witness :
    (initState.errors.email = "" ∨ initState.errors.email = "Invalid email address") ∧
    (initState.errors.phone = "" ∨ initState.errors.phone = "Invalid phone number") ∧
    (step initState (Event.submitForm true)).errors = initState.errors :=
  errors_canonical_and_only_validators_mutate initState (Event.submitForm true)
    Reachable.init rfl

end ContactUs
